import Mathlib

/-!
Verification of the Financial-Twin client pipeline (src/twin.js): a shallow
embedding of the payload builder, the simulation request/response
orchestration (runFullSimulation), the result rendering (updateUI) and the
chart lifecycle (updateChart), together with theorems about the embedded
definitions.

Modelling conventions:
* JavaScript numbers are modelled as rationals plus NaN (JsNum).  Form-field
  values carry the parseFloat result of the raw input; a field whose raw
  string does not parse as a finite number is JsNum.nan.
* The DOM elements the script reads and writes are collected in one DOM
  record; alert and console.error are modelled as append-only lists on that
  record, and each call to fetch appends the serialized payload to
  sentRequests.
* fetch is modelled by a FetchResult parameter: a network-level failure, or
  a response with an HTTP status and an optional decoded JSON body (none
  when response.json() fails to parse the body).
* Possibly-absent JSON fields are Option-valued; property access on an
  absent run (undefined) throws a TypeError, which Except.error models,
  carrying the DOM state already mutated at the throw point; reading an
  absent field of a present run yields undefined, which behaves as NaN in
  numeric contexts.
-/

/-- A JavaScript number as used by this program: NaN or a finite value,
modelled as a rational. -/
inductive JsNum where
  | nan : JsNum
  | num : ℚ → JsNum
  deriving DecidableEq

/-- JS subtraction: NaN propagates. -/
def jsSub : JsNum → JsNum → JsNum
  | JsNum.num a, JsNum.num b => JsNum.num (a - b)
  | _, _ => JsNum.nan

/-- JS Math.abs: NaN propagates. -/
def jsAbs : JsNum → JsNum
  | JsNum.num a => JsNum.num |a|
  | JsNum.nan => JsNum.nan

/-- The JS comparison x >= 0, which is false on NaN. -/
def jsGeZero : JsNum → Bool
  | JsNum.num a => decide (0 ≤ a)
  | JsNum.nan => false

/-- JS division as used in this program.  Both divisors in the source are
the nonzero literals 100 and 12, so the JS rule finite/0 = Infinity is
never exercised and finite division is rational division. -/
def jsDiv : JsNum → JsNum → JsNum
  | JsNum.num a, JsNum.num b => JsNum.num (a / b)
  | _, _ => JsNum.nan

/-- The value of the nullable goal_1_month field: an absent key (JS
undefined), JSON null, or an integer month index. -/
inductive GoalVal where
  | undefined : GoalVal
  | null : GoalVal
  | num : ℤ → GoalVal
  deriving DecidableEq

/-- JS template-literal stringification of a goal_1_month value. -/
def goalString : GoalVal → String
  | GoalVal.undefined => "undefined"
  | GoalVal.null => "null"
  | GoalVal.num n => toString n

/-- Digit grouping: insert a comma after every three digits, working on the
reversed digit list of a natural number. -/
def groupRev : List Char → List Char
  | a :: b :: c :: d :: rest => a :: b :: c :: ',' :: groupRev (d :: rest)
  | l => l

/-- Render a natural number with comma thousands separators. -/
def withCommas (n : ℕ) : String :=
  String.mk ((groupRev ((toString n).toList.reverse)).reverse)

/-- The shared Intl.NumberFormat formatter of twin.js lines 6-11 (en-US,
currency USD, zero fraction digits): rounds half away from zero to whole
dollars, groups digits with commas, places the dollar sign after the minus
sign of a negative value, and renders NaN as "$NaN". -/
def formatCurrency : JsNum → String
  | JsNum.nan => "$NaN"
  | JsNum.num q => (if q < 0 then "-$" else "$") ++ withCommas (Int.toNat ⌊|q| + 1 / 2⌋)

/-- The JSON payload sent to /simulate (twin.js lines 34-45). -/
structure Payload where
  monthly_income : JsNum
  monthly_expenses : JsNum
  current_savings : JsNum
  current_investments : JsNum
  goal_cost : JsNum
  investment_growth_rate : JsNum
  inflation_rate : JsNum
  monthly_savings_rate : JsNum
  risk_tolerance : String
  scenario : String
  deriving DecidableEq

/-- The form fields read at the start of runFullSimulation (twin.js lines
23-32).  Numeric fields carry the parseFloat result of the raw input
(JsNum.nan when the raw string does not parse as a finite number); the two
select fields are strings. -/
structure FormInputs where
  monthlyIncome : JsNum
  monthlyExpenses : JsNum
  currentSavings : JsNum
  currentInvestments : JsNum
  goalCost : JsNum
  investmentGrowth : JsNum
  inflationRate : JsNum
  savingsRate : JsNum
  riskTolerance : String
  scenario : String
  deriving DecidableEq

/-- Payload construction (twin.js lines 34-45): the annual percentage rates
are converted by (r / 100) / 12, the savings rate and every other field are
passed through. -/
def buildPayload (f : FormInputs) : Payload :=
  { monthly_income := f.monthlyIncome
    monthly_expenses := f.monthlyExpenses
    current_savings := f.currentSavings
    current_investments := f.currentInvestments
    goal_cost := f.goalCost
    investment_growth_rate := jsDiv (jsDiv f.investmentGrowth (JsNum.num 100)) (JsNum.num 12)
    inflation_rate := jsDiv (jsDiv f.inflationRate (JsNum.num 100)) (JsNum.num 12)
    monthly_savings_rate := f.savingsRate
    risk_tolerance := f.riskTolerance
    scenario := f.scenario }

/-- One projection run as decoded from the JSON response body.  Each field
is optional: none models an absent key (JS undefined). -/
structure RawRun where
  final_net_worth : Option ℚ
  history : Option (List ℚ)
  risks : Option (List String)
  insights : Option (List String)
  goal_1_month : GoalVal
  deriving DecidableEq

/-- A decoded response body: each of the four runs may be absent. -/
structure RawData where
  base : Option RawRun
  best : Option RawRun
  worst : Option RawRun
  scenario : Option RawRun
  deriving DecidableEq

/-- Reading a possibly-absent numeric field of a present run: undefined
behaves as NaN in numeric contexts (subtraction, formatting). -/
def numOf : Option ℚ → JsNum
  | none => JsNum.nan
  | some q => JsNum.num q

/-- One Chart.js dataset as configured in updateChart (twin.js lines
136-175). -/
structure Dataset where
  label : String
  data : Option (List ℚ)
  borderColor : String
  backgroundColor : String
  borderWidth : ℕ
  tension : ℚ
  pointRadius : ℕ
  pointHoverRadius : ℕ
  deriving DecidableEq

/-- The visible content of a constructed Chart instance: the month labels
and the four datasets.  The static styling options of the config (tooltip,
scales, legend) are fixed constants and are omitted. -/
structure ChartInstance where
  labels : List ℕ
  datasets : List Dataset
  deriving DecidableEq

/-- The classes of error that can reach the catch block of
runFullSimulation: a non-success status, a network-level fetch failure, a
response-body parse failure, or a TypeError thrown while rendering. -/
inductive SimError where
  | http : ℕ → SimError
  | network : SimError
  | parse : SimError
  | render : SimError
  deriving DecidableEq

/-- The DOM state touched by twin.js: the summary text elements, the two
annotation lists (text and class name per entry), the singleton chart slot
with live/destroyed instance counters, the submit control, and the
observable effects (alerts, console errors, requests handed to fetch). -/
structure DOM where
  baseNetWorth : String
  goalTime : String
  scenarioImpactText : String
  scenarioImpactColor : String
  riskAlerts : List (String × String)
  keyInsights : List (String × String)
  chart : Option ChartInstance
  liveCharts : ℕ
  chartsDestroyed : ℕ
  submitDisabled : Bool
  submitLabel : String
  alerts : List String
  consoleErrors : List SimError
  sentRequests : List Payload
  deriving DecidableEq

/-- The fixed month axis 1..120 (twin.js line 131). -/
def months : List ℕ := (List.range 120).map (fun i => i + 1)

/-- updateChart (twin.js lines 130-256): builds the chart configuration for
the four runs, destroys any previous chart instance, and installs the new
one.  Accessing the history of an absent run throws (Except.error) before
the old chart is destroyed. -/
def updateChart (data : RawData) (dom : DOM) : Except DOM DOM :=
  match data.base, data.best, data.worst, data.scenario with
  | some base, some best, some worst, some scen =>
    let chartData : ChartInstance :=
      { labels := months
        datasets :=
          [ { label := "Base Case", data := base.history, borderColor := "#007bff",
              backgroundColor := "rgba(0, 123, 255, 0.1)", borderWidth := 3,
              tension := 2 / 5, pointRadius := 0, pointHoverRadius := 6 },
            { label := "Best Case", data := best.history, borderColor := "#10b981",
              backgroundColor := "rgba(16, 185, 129, 0.1)", borderWidth := 3,
              tension := 2 / 5, pointRadius := 0, pointHoverRadius := 6 },
            { label := "Worst Case", data := worst.history, borderColor := "#ef4444",
              backgroundColor := "rgba(239, 68, 68, 0.1)", borderWidth := 3,
              tension := 2 / 5, pointRadius := 0, pointHoverRadius := 6 },
            { label := "What-If Scenario", data := scen.history, borderColor := "#f59e0b",
              backgroundColor := "rgba(245, 158, 11, 0.1)", borderWidth := 3,
              tension := 2 / 5, pointRadius := 0, pointHoverRadius := 6 } ] }
    let dom := if dom.chart.isSome then
        { dom with
          chart := none, liveCharts := dom.liveCharts - 1,
          chartsDestroyed := dom.chartsDestroyed + 1 }
      else dom
    Except.ok { dom with chart := some chartData, liveCharts := dom.liveCharts + 1 }
  | _, _, _, _ => Except.error dom

/-- updateUI (twin.js lines 71-128): writes the summary figures, goal time,
scenario impact, risk and insight lists, then calls updateChart.  Property
access on an absent run throws with the DOM mutated so far; spreading an
absent risks/insights array throws after the container has already been
cleared. -/
def updateUI (data : RawData) (dom : DOM) : Except DOM DOM :=
  match data.base with
  | none => Except.error dom
  | some base =>
    let dom := { dom with baseNetWorth := formatCurrency (numOf base.final_net_worth) }
    let dom :=
      if base.goal_1_month ≠ GoalVal.null then
        { dom with goalTime := goalString base.goal_1_month ++ " months" }
      else
        { dom with goalTime := "Not achieved" }
    match data.scenario with
    | none => Except.error dom
    | some scen =>
      let scenarioImpact := jsSub (numOf scen.final_net_worth) (numOf base.final_net_worth)
      let magnitude := formatCurrency (jsAbs scenarioImpact)
      let dom :=
        if jsGeZero scenarioImpact then
          { dom with scenarioImpactColor := "#10b981", scenarioImpactText := "+" ++ magnitude }
        else
          { dom with scenarioImpactColor := "#ef4444", scenarioImpactText := "-" ++ magnitude }
      let dom := { dom with riskAlerts := [] }
      match base.risks, scen.risks with
      | some brisks, some srisks =>
        let allRisks := brisks ++ srisks
        let dom :=
          if 0 < allRisks.length then
            { dom with riskAlerts := allRisks.map (fun r => (r, "risk-item")) }
          else
            { dom with riskAlerts := [("No critical risks detected", "placeholder")] }
        let dom := { dom with keyInsights := [] }
        match base.insights, scen.insights with
        | some bins, some sins =>
          let allInsights := bins ++ sins
          let dom :=
            if 0 < allInsights.length then
              { dom with keyInsights := allInsights.map (fun s => (s, "insight-item")) }
            else
              { dom with keyInsights := [("Run simulation to see insights", "placeholder")] }
          updateChart data dom
        | _, _ => Except.error dom
      | _, _ => Except.error dom

/-- response.ok: the HTTP status is in the 200-299 range. -/
def statusOk (s : ℕ) : Bool := decide (200 ≤ s) && decide (s < 300)

/-- Outcome of the single fetch call: a network-level failure, or a response
with an HTTP status and an optional decoded body (none when response.json()
fails to parse the body). -/
inductive FetchResult where
  | networkError : FetchResult
  | response : ℕ → Option RawData → FetchResult
  deriving DecidableEq

/-- The blocking notification text of the catch block (twin.js line 64). -/
def simFailAlert : String := "Simulation failed. Please check console for details."

/-- The catch block (twin.js lines 62-64): log the error for diagnostics and
show the blocking failure alert. -/
def failWith (e : SimError) (dom : DOM) : DOM :=
  { dom with consoleErrors := dom.consoleErrors ++ [e], alerts := dom.alerts ++ [simFailAlert] }

/-- The busy label installed while a request is in flight (twin.js line 21). -/
def busyLabel : String := "<ion-icon name=\"hourglass-outline\"></ion-icon> Simulating..."

/-- The original idle label restored by the finally block (twin.js line 67). -/
def idleLabel : String := "<ion-icon name=\"rocket-outline\"></ion-icon> Run Simulation"

/-- The in-flight state (twin.js lines 19-54): submit control disabled with
the busy label, payload built and handed to fetch (recorded in
sentRequests). -/
def inFlightState (f : FormInputs) (dom : DOM) : DOM :=
  let dom := { dom with submitDisabled := true, submitLabel := busyLabel }
  { dom with sentRequests := dom.sentRequests ++ [buildPayload f] }

/-- The try/catch body after the fetch resolves (twin.js lines 56-64): a
non-success status throws before the body is parsed; a body parse failure
throws; otherwise updateUI runs and any error it throws is caught.  Every
thrown error lands in the same catch block (failWith). -/
def settleOutcome (fetch : FetchResult) (dom : DOM) : DOM :=
  match fetch with
  | FetchResult.networkError => failWith SimError.network dom
  | FetchResult.response s body =>
    if statusOk s then
      match body with
      | none => failWith SimError.parse dom
      | some data =>
        match updateUI data dom with
        | Except.ok dom2 => dom2
        | Except.error dom2 => failWith SimError.render dom2
    else failWith (SimError.http s) dom

/-- runFullSimulation (twin.js lines 18-69): busy state, payload build,
fetch, outcome handling, and the finally block that unconditionally
restores the submit control. -/
def runFullSimulation (f : FormInputs) (fetch : FetchResult) (dom : DOM) : DOM :=
  let dom := inFlightState f dom
  let dom := settleOutcome fetch dom
  { dom with submitDisabled := false, submitLabel := idleLabel }

/-- A well-formed projection run: every required field present. -/
structure Run where
  final_net_worth : ℚ
  history : List ℚ
  risks : List String
  insights : List String
  goal_1_month : GoalVal
  deriving DecidableEq

/-- A well-formed response: all four runs present. -/
structure ProjectionResult where
  base : Run
  best : Run
  worst : Run
  scenario : Run
  deriving DecidableEq

/-- Injection of a well-formed run into the raw decoded form. -/
def toRawRun (r : Run) : RawRun :=
  { final_net_worth := some r.final_net_worth, history := some r.history,
    risks := some r.risks, insights := some r.insights,
    goal_1_month := r.goal_1_month }

/-- Injection of a well-formed response into the raw decoded form. -/
def toRaw (pr : ProjectionResult) : RawData :=
  { base := some (toRawRun pr.base), best := some (toRawRun pr.best),
    worst := some (toRawRun pr.worst), scenario := some (toRawRun pr.scenario) }

/-- updateChart restricted to a well-formed ProjectionResult, on which it
never throws; updateUI_toRaw below proves the correspondence. -/
def updateChartView (pr : ProjectionResult) (dom : DOM) : DOM :=
  let chartData : ChartInstance :=
    { labels := months
      datasets :=
        [ { label := "Base Case", data := some pr.base.history, borderColor := "#007bff",
            backgroundColor := "rgba(0, 123, 255, 0.1)", borderWidth := 3,
            tension := 2 / 5, pointRadius := 0, pointHoverRadius := 6 },
          { label := "Best Case", data := some pr.best.history, borderColor := "#10b981",
            backgroundColor := "rgba(16, 185, 129, 0.1)", borderWidth := 3,
            tension := 2 / 5, pointRadius := 0, pointHoverRadius := 6 },
          { label := "Worst Case", data := some pr.worst.history, borderColor := "#ef4444",
            backgroundColor := "rgba(239, 68, 68, 0.1)", borderWidth := 3,
            tension := 2 / 5, pointRadius := 0, pointHoverRadius := 6 },
          { label := "What-If Scenario", data := some pr.scenario.history, borderColor := "#f59e0b",
            backgroundColor := "rgba(245, 158, 11, 0.1)", borderWidth := 3,
            tension := 2 / 5, pointRadius := 0, pointHoverRadius := 6 } ] }
  let dom := if dom.chart.isSome then
      { dom with
        chart := none, liveCharts := dom.liveCharts - 1,
        chartsDestroyed := dom.chartsDestroyed + 1 }
    else dom
  { dom with chart := some chartData, liveCharts := dom.liveCharts + 1 }

/-- updateUI restricted to a well-formed ProjectionResult, on which it never
throws; updateUI_toRaw below proves the correspondence. -/
def updateUIView (pr : ProjectionResult) (dom : DOM) : DOM :=
  let dom := { dom with baseNetWorth := formatCurrency (JsNum.num pr.base.final_net_worth) }
  let dom :=
    if pr.base.goal_1_month ≠ GoalVal.null then
      { dom with goalTime := goalString pr.base.goal_1_month ++ " months" }
    else
      { dom with goalTime := "Not achieved" }
  let scenarioImpact := jsSub (JsNum.num pr.scenario.final_net_worth) (JsNum.num pr.base.final_net_worth)
  let magnitude := formatCurrency (jsAbs scenarioImpact)
  let dom :=
    if jsGeZero scenarioImpact then
      { dom with scenarioImpactColor := "#10b981", scenarioImpactText := "+" ++ magnitude }
    else
      { dom with scenarioImpactColor := "#ef4444", scenarioImpactText := "-" ++ magnitude }
  let dom := { dom with riskAlerts := [] }
  let allRisks := pr.base.risks ++ pr.scenario.risks
  let dom :=
    if 0 < allRisks.length then
      { dom with riskAlerts := allRisks.map (fun r => (r, "risk-item")) }
    else
      { dom with riskAlerts := [("No critical risks detected", "placeholder")] }
  let dom := { dom with keyInsights := [] }
  let allInsights := pr.base.insights ++ pr.scenario.insights
  let dom :=
    if 0 < allInsights.length then
      { dom with keyInsights := allInsights.map (fun s => (s, "insight-item")) }
    else
      { dom with keyInsights := [("Run simulation to see insights", "placeholder")] }
  updateChartView pr dom

/-- The DOM carried by either result of a fallible rendering step. -/
def settled : Except DOM DOM → DOM
  | Except.ok d => d
  | Except.error d => d

/-- The failure classification of one fetch outcome: network failure,
non-success status, or body parse failure. -/
def failedOutcome : FetchResult → Bool
  | FetchResult.networkError => true
  | FetchResult.response _ none => true
  | FetchResult.response s (some _) => !(statusOk s)

/-- Invariant tying the live-instance counter to the singleton chart slot. -/
def chartInvariant (dom : DOM) : Prop :=
  dom.liveCharts = if dom.chart.isSome then 1 else 0

/-- The summary figures, annotation lists and chart state of dom2 agree with
dom: no display update has occurred between the two states. -/
def displayUntouched (dom dom2 : DOM) : Prop :=
  dom2.baseNetWorth = dom.baseNetWorth ∧
  dom2.goalTime = dom.goalTime ∧
  dom2.scenarioImpactText = dom.scenarioImpactText ∧
  dom2.scenarioImpactColor = dom.scenarioImpactColor ∧
  dom2.riskAlerts = dom.riskAlerts ∧
  dom2.keyInsights = dom.keyInsights ∧
  dom2.chart = dom.chart ∧
  dom2.liveCharts = dom.liveCharts ∧
  dom2.chartsDestroyed = dom.chartsDestroyed

/-- An initial DOM: nothing rendered, control idle, no effects yet. -/
def dom0 : DOM :=
  { baseNetWorth := "", goalTime := "", scenarioImpactText := "",
    scenarioImpactColor := "", riskAlerts := [], keyInsights := [],
    chart := none, liveCharts := 0, chartsDestroyed := 0,
    submitDisabled := false, submitLabel := idleLabel,
    alerts := [], consoleErrors := [], sentRequests := [] }

/-- The worked example inputs of the specification. -/
def inputs0 : FormInputs :=
  { monthlyIncome := JsNum.num 5000, monthlyExpenses := JsNum.num 3000,
    currentSavings := JsNum.num 10000, currentInvestments := JsNum.num 20000,
    goalCost := JsNum.num 50000, investmentGrowth := JsNum.num 7,
    inflationRate := JsNum.num 3, savingsRate := JsNum.num (3 / 10),
    riskTolerance := "moderate", scenario := "job_loss" }

/-- Inputs in which two numeric fields failed to parse (parseFloat gave
NaN). -/
def inputsNaN : FormInputs :=
  { monthlyIncome := JsNum.nan, monthlyExpenses := JsNum.num 3000,
    currentSavings := JsNum.num 10000, currentInvestments := JsNum.num 20000,
    goalCost := JsNum.num 50000, investmentGrowth := JsNum.nan,
    inflationRate := JsNum.num 3, savingsRate := JsNum.num (3 / 10),
    riskTolerance := "moderate", scenario := "job_loss" }

/-- A small well-formed run used as a fixture. -/
def runA : Run :=
  { final_net_worth := 100000, history := [1, 2, 3], risks := ["High spending"],
    insights := [], goal_1_month := GoalVal.num 24 }

/-- A second fixture run with a larger final net worth. -/
def runB : Run :=
  { final_net_worth := 120000, history := [2, 3, 4], risks := ["Job loss risk"],
    insights := ["Save more"], goal_1_month := GoalVal.null }

/-- A fixture response with nonempty merged risks and insights. -/
def pr1 : ProjectionResult := { base := runA, best := runB, worst := runA, scenario := runB }

/-- A fixture run with empty risk and insight lists. -/
def runEmpty : Run :=
  { final_net_worth := 0, history := [], risks := [], insights := [],
    goal_1_month := GoalVal.null }

/-- A fixture whose merged risk and insight lists are both empty. -/
def prEmpty : ProjectionResult :=
  { base := runEmpty, best := runEmpty, worst := runEmpty, scenario := runEmpty }

/-- A response in which base.goal_1_month is absent (undefined). -/
def prUndef : ProjectionResult :=
  { base := { runEmpty with goal_1_month := GoalVal.undefined },
    best := runEmpty, worst := runEmpty, scenario := runEmpty }

/-- A successfully parsed response in which every run is present but the
required field base.final_net_worth is absent. -/
def rawMissingField : RawData :=
  { base := some { final_net_worth := none, history := some [], risks := some [],
                   insights := some [], goal_1_month := GoalVal.null },
    best := toRawRun runEmpty, worst := toRawRun runEmpty,
    scenario := toRawRun runEmpty }

/-- A successfully parsed response in which the required run named scenario
is absent. -/
def rawMissingScenario : RawData :=
  { base := toRawRun runA, best := toRawRun runA, worst := toRawRun runA,
    scenario := none }

/-- On a well-formed response the fallible renderer succeeds and computes
exactly the view restriction. -/
theorem updateUI_toRaw (pr : ProjectionResult) (dom : DOM) :
    updateUI (toRaw pr) dom = Except.ok (updateUIView pr dom) := rfl

/-- updateChart never touches the alert list. -/
theorem updateChart_alerts (data : RawData) (d : DOM) :
    (settled (updateChart data d)).alerts = d.alerts := by
  rcases data with ⟨b, be, w, sc⟩
  cases b <;> cases be <;> cases w <;> cases sc <;>
    simp only [updateChart, settled] <;> split_ifs <;> rfl

/-- updateChart never touches the console log. -/
theorem updateChart_consoleErrors (data : RawData) (d : DOM) :
    (settled (updateChart data d)).consoleErrors = d.consoleErrors := by
  rcases data with ⟨b, be, w, sc⟩
  cases b <;> cases be <;> cases w <;> cases sc <;>
    simp only [updateChart, settled] <;> split_ifs <;> rfl

/-- updateChart never touches the sent-request log. -/
theorem updateChart_sentRequests (data : RawData) (d : DOM) :
    (settled (updateChart data d)).sentRequests = d.sentRequests := by
  rcases data with ⟨b, be, w, sc⟩
  cases b <;> cases be <;> cases w <;> cases sc <;>
    simp only [updateChart, settled] <;> split_ifs <;> rfl

/-- updateUI never touches the alert list. -/
theorem updateUI_alerts (data : RawData) (d : DOM) :
    (settled (updateUI data d)).alerts = d.alerts := by
  rcases data with ⟨b, be, w, sc⟩
  cases b with
  | none => rfl
  | some rb =>
    cases sc with
    | none => simp only [updateUI, settled] <;> split_ifs <;> rfl
    | some rs =>
      rcases rb with ⟨fb, hb, rkb, inb, gb⟩
      rcases rs with ⟨fs, hs, rks, ins2, gs⟩
      cases rkb <;> cases rks <;> cases inb <;> cases ins2 <;>
        simp only [updateUI] <;> split_ifs <;>
        first
          | rfl
          | (rw [updateChart_alerts]; try rfl)

/-- updateUI never touches the console log. -/
theorem updateUI_consoleErrors (data : RawData) (d : DOM) :
    (settled (updateUI data d)).consoleErrors = d.consoleErrors := by
  rcases data with ⟨b, be, w, sc⟩
  cases b with
  | none => rfl
  | some rb =>
    cases sc with
    | none => simp only [updateUI, settled] <;> split_ifs <;> rfl
    | some rs =>
      rcases rb with ⟨fb, hb, rkb, inb, gb⟩
      rcases rs with ⟨fs, hs, rks, ins2, gs⟩
      cases rkb <;> cases rks <;> cases inb <;> cases ins2 <;>
        simp only [updateUI] <;> split_ifs <;>
        first
          | rfl
          | (rw [updateChart_consoleErrors]; try rfl)

/-- updateUI never touches the sent-request log. -/
theorem updateUI_sentRequests (data : RawData) (d : DOM) :
    (settled (updateUI data d)).sentRequests = d.sentRequests := by
  rcases data with ⟨b, be, w, sc⟩
  cases b with
  | none => rfl
  | some rb =>
    cases sc with
    | none => simp only [updateUI, settled] <;> split_ifs <;> rfl
    | some rs =>
      rcases rb with ⟨fb, hb, rkb, inb, gb⟩
      rcases rs with ⟨fs, hs, rks, ins2, gs⟩
      cases rkb <;> cases rks <;> cases inb <;> cases ins2 <;>
        simp only [updateUI] <;> split_ifs <;>
        first
          | rfl
          | (rw [updateChart_sentRequests]; try rfl)

/-- C1: when the growth and inflation inputs parse as numbers g and i, the
payload carries investment_growth_rate = (g/100)/12 and inflation_rate =
(i/100)/12; monthly_savings_rate is the parsed savings-rate input unchanged;
and every other request field passes through under its key with its input
value. -/
theorem payload_builder_rate_conversion (f : FormInputs) (g i : ℚ)
    (hg : f.investmentGrowth = JsNum.num g) (hi : f.inflationRate = JsNum.num i) :
    (buildPayload f).investment_growth_rate = JsNum.num (g / 100 / 12) ∧
    (buildPayload f).inflation_rate = JsNum.num (i / 100 / 12) ∧
    (buildPayload f).monthly_savings_rate = f.savingsRate ∧
    (buildPayload f).monthly_income = f.monthlyIncome ∧
    (buildPayload f).monthly_expenses = f.monthlyExpenses ∧
    (buildPayload f).current_savings = f.currentSavings ∧
    (buildPayload f).current_investments = f.currentInvestments ∧
    (buildPayload f).goal_cost = f.goalCost ∧
    (buildPayload f).risk_tolerance = f.riskTolerance ∧
    (buildPayload f).scenario = f.scenario := by
  simp [buildPayload, jsDiv, hg, hi]

/-- C1 witness: the worked example of the specification, growth 7 percent
and inflation 3 percent per year. -/
theorem payload_builder_rate_conversion_witness :
    inputs0.investmentGrowth = JsNum.num 7 ∧ inputs0.inflationRate = JsNum.num 3 ∧
    ((buildPayload inputs0).investment_growth_rate = JsNum.num (7 / 100 / 12) ∧
     (buildPayload inputs0).inflation_rate = JsNum.num (3 / 100 / 12) ∧
     (buildPayload inputs0).monthly_savings_rate = inputs0.savingsRate ∧
     (buildPayload inputs0).monthly_income = inputs0.monthlyIncome ∧
     (buildPayload inputs0).monthly_expenses = inputs0.monthlyExpenses ∧
     (buildPayload inputs0).current_savings = inputs0.currentSavings ∧
     (buildPayload inputs0).current_investments = inputs0.currentInvestments ∧
     (buildPayload inputs0).goal_cost = inputs0.goalCost ∧
     (buildPayload inputs0).risk_tolerance = inputs0.riskTolerance ∧
     (buildPayload inputs0).scenario = inputs0.scenario) :=
  ⟨rfl, rfl, payload_builder_rate_conversion inputs0 7 3 rfl rfl⟩

/-- C2: every failing pipeline run (network-level failure, non-success HTTP
status, or response-body parse failure) shows exactly one blocking alert,
logs exactly one error, sends exactly one request (no retry), and leaves
every summary element, annotation list and the chart untouched. -/
theorem failure_single_alert_no_retry (f : FormInputs) (fetch : FetchResult) (dom : DOM)
    (h : failedOutcome fetch = true) :
    (runFullSimulation f fetch dom).alerts = dom.alerts ++ [simFailAlert] ∧
    (runFullSimulation f fetch dom).consoleErrors.length = dom.consoleErrors.length + 1 ∧
    (runFullSimulation f fetch dom).sentRequests = dom.sentRequests ++ [buildPayload f] ∧
    displayUntouched dom (runFullSimulation f fetch dom) := by
  cases fetch with
  | networkError =>
    simp [runFullSimulation, inFlightState, settleOutcome, failWith, displayUntouched]
  | response s body =>
    cases body with
    | none =>
      by_cases hs : statusOk s = true <;>
        simp [runFullSimulation, inFlightState, settleOutcome, failWith, displayUntouched, hs]
    | some data =>
      have hs : statusOk s = false := by
        simpa [failedOutcome] using h
      simp [runFullSimulation, inFlightState, settleOutcome, failWith, displayUntouched, hs]

/-- C2 witness: a network failure at the worked example, from an empty DOM. -/
theorem failure_single_alert_no_retry_witness :
    failedOutcome FetchResult.networkError = true ∧
    ((runFullSimulation inputs0 FetchResult.networkError dom0).alerts = dom0.alerts ++ [simFailAlert] ∧
     (runFullSimulation inputs0 FetchResult.networkError dom0).consoleErrors.length =
       dom0.consoleErrors.length + 1 ∧
     (runFullSimulation inputs0 FetchResult.networkError dom0).sentRequests =
       dom0.sentRequests ++ [buildPayload inputs0] ∧
     displayUntouched dom0 (runFullSimulation inputs0 FetchResult.networkError dom0)) :=
  ⟨rfl, failure_single_alert_no_retry inputs0 FetchResult.networkError dom0 rfl⟩

/-- C3: while the request is in flight the submit control is disabled and
carries the distinct busy label; by the time any run completes (success,
network failure, non-success status, parse failure, or a rendering error)
the control is enabled again with the original label. -/
theorem submit_control_busy_then_restored (f : FormInputs) (fetch : FetchResult) (dom : DOM) :
    (inFlightState f dom).submitDisabled = true ∧
    (inFlightState f dom).submitLabel = busyLabel ∧
    busyLabel ≠ idleLabel ∧
    (runFullSimulation f fetch dom).submitDisabled = false ∧
    (runFullSimulation f fetch dom).submitLabel = idleLabel :=
  ⟨rfl, rfl, by decide, rfl, rfl⟩

/-- updateChartView never touches the risk list element. -/
theorem updateChartView_riskAlerts (pr : ProjectionResult) (d : DOM) :
    (updateChartView pr d).riskAlerts = d.riskAlerts := by
  simp only [updateChartView] <;> split_ifs <;> rfl

/-- updateChartView never touches the insight list element. -/
theorem updateChartView_keyInsights (pr : ProjectionResult) (d : DOM) :
    (updateChartView pr d).keyInsights = d.keyInsights := by
  simp only [updateChartView] <;> split_ifs <;> rfl

/-- updateChartView never touches the goal-time element. -/
theorem updateChartView_goalTime (pr : ProjectionResult) (d : DOM) :
    (updateChartView pr d).goalTime = d.goalTime := by
  simp only [updateChartView] <;> split_ifs <;> rfl

/-- updateChartView never touches the scenario-impact text. -/
theorem updateChartView_scenarioImpactText (pr : ProjectionResult) (d : DOM) :
    (updateChartView pr d).scenarioImpactText = d.scenarioImpactText := by
  simp only [updateChartView] <;> split_ifs <;> rfl

/-- updateChartView never touches the scenario-impact color. -/
theorem updateChartView_scenarioImpactColor (pr : ProjectionResult) (d : DOM) :
    (updateChartView pr d).scenarioImpactColor = d.scenarioImpactColor := by
  simp only [updateChartView] <;> split_ifs <;> rfl

/-- C4: the rendered risk list is exactly base.risks concatenated with
scenario.risks in that order, with no deduplication or reordering, and
likewise for insights; an empty merged sequence is replaced by exactly one
placeholder entry. -/
theorem merged_risks_and_insights (pr : ProjectionResult) (dom : DOM) :
    (pr.base.risks ++ pr.scenario.risks ≠ [] →
      (updateUIView pr dom).riskAlerts =
        (pr.base.risks ++ pr.scenario.risks).map (fun r => (r, "risk-item"))) ∧
    (pr.base.risks ++ pr.scenario.risks = [] →
      (updateUIView pr dom).riskAlerts = [("No critical risks detected", "placeholder")]) ∧
    (pr.base.insights ++ pr.scenario.insights ≠ [] →
      (updateUIView pr dom).keyInsights =
        (pr.base.insights ++ pr.scenario.insights).map (fun s => (s, "insight-item"))) ∧
    (pr.base.insights ++ pr.scenario.insights = [] →
      (updateUIView pr dom).keyInsights = [("Run simulation to see insights", "placeholder")]) := by
  refine ⟨fun h => ?_, fun h => ?_, fun h => ?_, fun h => ?_⟩ <;>
    (simp only [updateUIView]
     first
       | rw [updateChartView_riskAlerts]
       | rw [updateChartView_keyInsights]
     split_ifs <;> simp_all [List.length_pos])

/-- C4 witness: nonempty merged risks at pr1, empty merged risks at prEmpty. -/
theorem merged_risks_and_insights_witness :
    pr1.base.risks ++ pr1.scenario.risks ≠ [] ∧
    (updateUIView pr1 dom0).riskAlerts =
      (pr1.base.risks ++ pr1.scenario.risks).map (fun r => (r, "risk-item")) ∧
    prEmpty.base.risks ++ prEmpty.scenario.risks = [] ∧
    (updateUIView prEmpty dom0).riskAlerts = [("No critical risks detected", "placeholder")] :=
  ⟨by decide, (merged_risks_and_insights pr1 dom0).1 (by decide), rfl,
    (merged_risks_and_insights prEmpty dom0).2.1 rfl⟩

/-- C5: when scenario.final_net_worth is at least base.final_net_worth the
displayed impact is the '+'-prefixed currency-formatted absolute difference
in the good color; when strictly less, the '-'-prefixed absolute difference
in the bad color. -/
theorem scenario_impact_sign_and_color (pr : ProjectionResult) (dom : DOM) :
    (pr.base.final_net_worth ≤ pr.scenario.final_net_worth →
      (updateUIView pr dom).scenarioImpactText =
        "+" ++ formatCurrency (JsNum.num |pr.scenario.final_net_worth - pr.base.final_net_worth|) ∧
      (updateUIView pr dom).scenarioImpactColor = "#10b981") ∧
    (pr.scenario.final_net_worth < pr.base.final_net_worth →
      (updateUIView pr dom).scenarioImpactText =
        "-" ++ formatCurrency (JsNum.num |pr.scenario.final_net_worth - pr.base.final_net_worth|) ∧
      (updateUIView pr dom).scenarioImpactColor = "#ef4444") := by
  constructor
  · intro h
    have hc : jsGeZero (jsSub (JsNum.num pr.scenario.final_net_worth)
        (JsNum.num pr.base.final_net_worth)) = true := by
      simp [jsSub, jsGeZero, sub_nonneg, h]
    constructor <;>
      (simp only [updateUIView]
       first
         | rw [updateChartView_scenarioImpactText]
         | rw [updateChartView_scenarioImpactColor]
       split_ifs <;> simp_all [jsSub, jsAbs])
  · intro h
    have hc : jsGeZero (jsSub (JsNum.num pr.scenario.final_net_worth)
        (JsNum.num pr.base.final_net_worth)) = false := by
      simp [jsSub, jsGeZero]
      linarith
    constructor <;>
      (simp only [updateUIView]
       first
         | rw [updateChartView_scenarioImpactText]
         | rw [updateChartView_scenarioImpactColor]
       split_ifs <;> simp_all [jsSub, jsAbs])

/-- C5 witness: pr1 has scenario final net worth 120000 against base 100000. -/
theorem scenario_impact_sign_and_color_witness :
    pr1.base.final_net_worth ≤ pr1.scenario.final_net_worth ∧
    ((updateUIView pr1 dom0).scenarioImpactText =
      "+" ++ formatCurrency (JsNum.num |pr1.scenario.final_net_worth - pr1.base.final_net_worth|) ∧
     (updateUIView pr1 dom0).scenarioImpactColor = "#10b981") :=
  ⟨by decide, (scenario_impact_sign_and_color pr1 dom0).1 (by decide)⟩

/-- C6 counterexample: a response whose base.goal_1_month is absent
(undefined) renders the goal time as "undefined months", not the fixed
"Not achieved" sentinel the claim requires for null-or-absent values. -/
theorem goal_time_absent_counterexample :
    (updateUIView prUndef dom0).goalTime = "undefined months" ∧
    (updateUIView prUndef dom0).goalTime ≠ "Not achieved" := by
  have h : (updateUIView prUndef dom0).goalTime = "undefined months" := by
    simp only [updateUIView]
    rw [updateChartView_goalTime]
    split_ifs <;> simp_all [prUndef, runEmpty, goalString]
  exact ⟨h, by rw [h]; decide⟩

/-- C6 amended: when base.goal_1_month is null the displayed goal-time string
is the fixed "Not achieved" sentinel, and when it is a present integer n the
displayed string is n months; but when the field is absent (undefined) the
code renders "undefined months" rather than the sentinel. -/
theorem goal_time_display (pr : ProjectionResult) (dom : DOM) :
    (pr.base.goal_1_month = GoalVal.null →
      (updateUIView pr dom).goalTime = "Not achieved") ∧
    (∀ n : ℤ, pr.base.goal_1_month = GoalVal.num n →
      (updateUIView pr dom).goalTime = toString n ++ " months") ∧
    (pr.base.goal_1_month = GoalVal.undefined →
      (updateUIView pr dom).goalTime = "undefined months") := by
  refine ⟨fun h => ?_, fun n h => ?_, fun h => ?_⟩ <;>
    (simp only [updateUIView]
     rw [updateChartView_goalTime]
     split_ifs <;> simp_all [goalString])

/-- C6 amended witness: pr1 reaches the goal at month 24; prEmpty has a null
goal month. -/
theorem goal_time_display_witness :
    pr1.base.goal_1_month = GoalVal.num 24 ∧
    (updateUIView pr1 dom0).goalTime = toString (24 : ℤ) ++ " months" ∧
    prEmpty.base.goal_1_month = GoalVal.null ∧
    (updateUIView prEmpty dom0).goalTime = "Not achieved" :=
  ⟨rfl, (goal_time_display pr1 dom0).2.1 24 rfl, rfl,
    (goal_time_display prEmpty dom0).1 rfl⟩

/-- C9: from any state satisfying the chart-counter invariant, a render
destroys the previous instance exactly when one exists, leaves exactly one
live instance, re-establishes the invariant, and re-rendering the same
result leaves identical visible chart content and still exactly one live
instance. -/
theorem chart_singleton_idempotent (pr : ProjectionResult) (dom : DOM)
    (h : chartInvariant dom) :
    (updateChartView pr dom).liveCharts = 1 ∧
    chartInvariant (updateChartView pr dom) ∧
    (updateChartView pr dom).chartsDestroyed =
      dom.chartsDestroyed + (if dom.chart.isSome then 1 else 0) ∧
    (updateChartView pr (updateChartView pr dom)).chart = (updateChartView pr dom).chart ∧
    (updateChartView pr (updateChartView pr dom)).liveCharts = 1 := by
  cases hc : dom.chart with
  | none =>
    have h0 : dom.liveCharts = 0 := by simpa [chartInvariant, hc] using h
    refine ⟨?_, ?_, ?_, rfl, ?_⟩ <;> simp [updateChartView, chartInvariant, hc, h0]
  | some c =>
    have h1 : dom.liveCharts = 1 := by simpa [chartInvariant, hc] using h
    refine ⟨?_, ?_, ?_, rfl, ?_⟩ <;> simp [updateChartView, chartInvariant, hc, h1]

/-- C9 witness: two renders of pr1 from the empty DOM, which satisfies the
invariant. -/
theorem chart_singleton_idempotent_witness :
    chartInvariant dom0 ∧
    ((updateChartView pr1 dom0).liveCharts = 1 ∧
     chartInvariant (updateChartView pr1 dom0) ∧
     (updateChartView pr1 dom0).chartsDestroyed =
       dom0.chartsDestroyed + (if dom0.chart.isSome then 1 else 0) ∧
     (updateChartView pr1 (updateChartView pr1 dom0)).chart = (updateChartView pr1 dom0).chart ∧
     (updateChartView pr1 (updateChartView pr1 dom0)).liveCharts = 1) :=
  ⟨rfl, chart_singleton_idempotent pr1 dom0 rfl⟩

/-- C10: the chart is built over the fixed month axis 1..120 regardless of
the history lengths, with exactly four datasets in the fixed order base,
best, worst, scenario, fixed labels and colors independent of the data, and
the four histories as their data. -/
theorem chart_axis_and_fixed_datasets (pr : ProjectionResult) (dom : DOM) :
    ∃ c, (updateChartView pr dom).chart = some c ∧
      c.labels = (List.range 120).map (fun i => i + 1) ∧
      c.labels.length = 120 ∧
      c.datasets.map Dataset.label = ["Base Case", "Best Case", "Worst Case", "What-If Scenario"] ∧
      c.datasets.map Dataset.borderColor = ["#007bff", "#10b981", "#ef4444", "#f59e0b"] ∧
      c.datasets.map Dataset.data =
        [some pr.base.history, some pr.best.history, some pr.worst.history,
         some pr.scenario.history] := by
  refine ⟨_, rfl, rfl, ?_, rfl, rfl, rfl⟩
  simp [months]

/-- C7 counterexample: with an unparseable monthly-income field (parseFloat
NaN) the payload is still constructed, carries NaN, and one request is sent;
no ValidationError blocks submission. -/
theorem nan_payload_sent_counterexample :
    (buildPayload inputsNaN).monthly_income = JsNum.nan ∧
    (runFullSimulation inputsNaN FetchResult.networkError dom0).sentRequests =
      [buildPayload inputsNaN] :=
  ⟨rfl, rfl⟩

/-- C7 amended: the client performs no validation: every submission
constructs the payload and sends exactly one request even when numeric
fields fail to parse; NaN pass-through fields keep NaN, and a NaN rate
input yields a NaN converted rate. -/
theorem no_validation_payload_always_sent (f : FormInputs) (fetch : FetchResult) (dom : DOM) :
    (runFullSimulation f fetch dom).sentRequests = dom.sentRequests ++ [buildPayload f] ∧
    (buildPayload f).monthly_income = f.monthlyIncome ∧
    (f.investmentGrowth = JsNum.nan → (buildPayload f).investment_growth_rate = JsNum.nan) := by
  refine ⟨?_, rfl, fun h => by simp [buildPayload, jsDiv, h]⟩
  cases fetch with
  | networkError => rfl
  | response s body =>
    cases body with
    | none =>
      by_cases hs : statusOk s = true <;>
        simp [runFullSimulation, inFlightState, settleOutcome, failWith, hs]
    | some data =>
      by_cases hs : statusOk s = true
      · cases hu : updateUI data (inFlightState f dom) with
        | ok d2 =>
          have hp := updateUI_sentRequests data (inFlightState f dom)
          rw [hu] at hp
          simp only [settled] at hp
          simp only [runFullSimulation, settleOutcome]
          rw [hu]
          simp [hs, hp, inFlightState]
        | error d2 =>
          have hp := updateUI_sentRequests data (inFlightState f dom)
          rw [hu] at hp
          simp only [settled] at hp
          simp only [runFullSimulation, settleOutcome]
          rw [hu]
          simp [failWith, hs, hp, inFlightState]
      · simp [runFullSimulation, inFlightState, settleOutcome, failWith, hs]

/-- C7 amended witness: the NaN-bearing inputs still produce one sent
request with NaN fields. -/
theorem no_validation_payload_always_sent_witness :
    inputsNaN.investmentGrowth = JsNum.nan ∧
    ((runFullSimulation inputsNaN FetchResult.networkError dom0).sentRequests =
      dom0.sentRequests ++ [buildPayload inputsNaN] ∧
     (buildPayload inputsNaN).monthly_income = inputsNaN.monthlyIncome ∧
     (buildPayload inputsNaN).investment_growth_rate = JsNum.nan) := by
  have T := no_validation_payload_always_sent inputsNaN FetchResult.networkError dom0
  exact ⟨rfl, T.1, T.2.1, T.2.2 rfl⟩

/-- Rendering a response in which any of the four required runs is absent
always throws. -/
theorem updateUI_error_of_missing_run (raw : RawData) (dom : DOM)
    (h : raw.base = none ∨ raw.best = none ∨ raw.worst = none ∨ raw.scenario = none) :
    ∃ dom2, updateUI raw dom = Except.error dom2 := by
  rcases raw with ⟨b, be, w, sc⟩
  cases b with
  | none => exact ⟨dom, rfl⟩
  | some rb =>
    cases sc with
    | none =>
      simp only [updateUI]
      split_ifs <;> exact ⟨_, rfl⟩
    | some rs =>
      simp at h
      rcases rb with ⟨fb, hb2, rkb, inb, gb⟩
      rcases rs with ⟨fs, hs2, rks, ins2, gs⟩
      rcases h with h | h
      · subst h
        cases rkb <;> cases rks <;> cases inb <;> cases ins2 <;>
          simp only [updateUI] <;> split_ifs <;> exact ⟨_, rfl⟩
      · subst h
        cases be <;> cases rkb <;> cases rks <;> cases inb <;> cases ins2 <;>
          simp only [updateUI] <;> split_ifs <;> exact ⟨_, rfl⟩

/-- C8 amended: a successfully parsed response missing one of the four
required runs throws and is routed through the same failure-notification
path as a SimulationFailure (alert shown, error logged); however summary
fields written before the faulting access remain, so the UI can be left
partially rendered (the base figure survives a missing scenario run); and a
response whose four runs and their risk/insight lists are present is never
flagged: absent numeric fields render as NaN with no error raised. -/
theorem schema_error_surfacing (f : FormInputs) (s : ℕ) (raw : RawData) (dom : DOM) :
    ((raw.base = none ∨ raw.best = none ∨ raw.worst = none ∨ raw.scenario = none) →
      statusOk s = true →
      (runFullSimulation f (FetchResult.response s (some raw)) dom).alerts =
        dom.alerts ++ [simFailAlert] ∧
      (runFullSimulation f (FetchResult.response s (some raw)) dom).consoleErrors =
        dom.consoleErrors ++ [SimError.render]) ∧
    (∀ b, raw.base = some b → raw.scenario = none →
      ∃ dom2, updateUI raw dom = Except.error dom2 ∧
        dom2.baseNetWorth = formatCurrency (numOf b.final_net_worth)) ∧
    (∀ b bb w sc, raw.base = some b → raw.best = some bb → raw.worst = some w →
      raw.scenario = some sc → b.risks ≠ none → b.insights ≠ none →
      sc.risks ≠ none → sc.insights ≠ none →
      ∃ dom2, updateUI raw dom = Except.ok dom2) := by
  refine ⟨fun hruns hs => ?_, fun b hb hsc => ?_, fun b bb w sc hb hbb hw hsc hr1 hi1 hr2 hi2 => ?_⟩
  · obtain ⟨d2, hd⟩ := updateUI_error_of_missing_run raw (inFlightState f dom) hruns
    have ha := updateUI_alerts raw (inFlightState f dom)
    have hc := updateUI_consoleErrors raw (inFlightState f dom)
    rw [hd] at ha hc
    simp only [settled] at ha hc
    constructor <;>
      (simp only [runFullSimulation, settleOutcome]
       rw [hd]
       simp [failWith, hs, ha, hc, inFlightState])
  · rcases raw with ⟨b0, be0, w0, s0⟩
    simp only at hb hsc
    subst hb
    subst hsc
    simp only [updateUI]
    split_ifs <;> exact ⟨_, rfl, rfl⟩
  · rcases raw with ⟨b0, be0, w0, s0⟩
    simp only at hb hbb hw hsc
    subst hb
    subst hbb
    subst hw
    subst hsc
    obtain ⟨brs, hbrs⟩ := Option.ne_none_iff_exists'.mp hr1
    obtain ⟨bis, hbis⟩ := Option.ne_none_iff_exists'.mp hi1
    obtain ⟨srs, hsrs⟩ := Option.ne_none_iff_exists'.mp hr2
    obtain ⟨sis, hsis⟩ := Option.ne_none_iff_exists'.mp hi2
    simp only [updateUI, updateChart, hbrs, hbis, hsrs, hsis]
    split_ifs <;> exact ⟨_, rfl⟩

/-- C8 counterexample: a successfully parsed response with all four runs
present but base.final_net_worth absent is not flagged at all: no failure
alert is raised and the UI renders from the malformed result, formatting
the missing figure as "$NaN" and building the chart. -/
theorem schema_missing_field_counterexample :
    (runFullSimulation inputs0 (FetchResult.response 200 (some rawMissingField)) dom0).alerts = [] ∧
    (runFullSimulation inputs0 (FetchResult.response 200 (some rawMissingField)) dom0).baseNetWorth =
      "$NaN" ∧
    (runFullSimulation inputs0 (FetchResult.response 200 (some rawMissingField)) dom0).chart.isSome =
      true :=
  ⟨rfl, rfl, rfl⟩

/-- C8 amended witness: the response missing its scenario run is routed to
the failure alert with a logged rendering error. -/
theorem schema_error_surfacing_witness :
    (rawMissingScenario.base = none ∨ rawMissingScenario.best = none ∨
      rawMissingScenario.worst = none ∨ rawMissingScenario.scenario = none) ∧
    statusOk 200 = true ∧
    ((runFullSimulation inputs0 (FetchResult.response 200 (some rawMissingScenario)) dom0).alerts =
        dom0.alerts ++ [simFailAlert] ∧
     (runFullSimulation inputs0 (FetchResult.response 200 (some rawMissingScenario)) dom0).consoleErrors =
        dom0.consoleErrors ++ [SimError.render]) := by
  have T := schema_error_surfacing inputs0 200 rawMissingScenario dom0
  exact ⟨Or.inr (Or.inr (Or.inr rfl)), rfl, T.1 (Or.inr (Or.inr (Or.inr rfl))) rfl⟩
